import Mathlib

/-!
# createEC2 (AWS/cmd/api/main.go)

A shallow embedding of `createEC2`, the single provisioning procedure of the
repository, over a simulated AWS SDK.

* Go pointers (`*string`, `*int32`, `*types.Vpc`, ...) are `Option`s; reading
  through a nil pointer, or indexing a slice out of range, is the outcome
  `Outcome.panic`. Operands of a request literal are evaluated before the call
  that receives it.
* A Go `error` is its message (`err.Error()`), so `fmt.Errorf("tag: %s", err)`
  is string concatenation.
* The SDK is a record of state-passing functions: every operation receives the
  client configuration, the request and the provider state, and answers with a
  result (`Except String _`, the error text on the left) and the next state.
* Every call made on the EC2 client is appended, request and result, to a
  trace that is returned next to the outcome.
-/

namespace AWS

/-! ## Request and response records (the fields the program touches) -/

/-- The record `types.Filter`. -/
structure Filter where
  Name : Option String
  Values : List String
  deriving DecidableEq, Repr

/-- The record `ec2.CreateKeyPairInput`. -/
structure CreateKeyPairInput where
  KeyName : Option String
  deriving DecidableEq, Repr

/-- The record `ec2.CreateKeyPairOutput`; the program discards it. -/
structure CreateKeyPairOutput where
  KeyPairId : Option String
  deriving DecidableEq, Repr

/-- The record `ec2.CreateVpcInput`. -/
structure CreateVpcInput where
  CidrBlock : Option String
  deriving DecidableEq, Repr

/-- The record `types.Vpc`. -/
structure Vpc where
  VpcId : Option String
  deriving DecidableEq, Repr

/-- The record `ec2.CreateVpcOutput`; `Vpc` is a pointer. -/
structure CreateVpcOutput where
  Vpc : Option Vpc
  deriving DecidableEq, Repr

/-- The record `ec2.CreateSubnetInput`. -/
structure CreateSubnetInput where
  VpcId : Option String
  CidrBlock : Option String
  deriving DecidableEq, Repr

/-- The record `types.Subnet`. -/
structure Subnet where
  SubnetId : Option String
  deriving DecidableEq, Repr

/-- The record `ec2.CreateSubnetOutput`; `Subnet` is a pointer. -/
structure CreateSubnetOutput where
  Subnet : Option Subnet
  deriving DecidableEq, Repr

/-- The record `ec2.DescribeImagesInput`. -/
structure DescribeImagesInput where
  Filters : List Filter
  Owners : List String
  deriving DecidableEq, Repr

/-- The record `types.Image`. -/
structure Image where
  ImageId : Option String
  deriving DecidableEq, Repr

/-- The record `ec2.DescribeImagesOutput`; `Images` is a slice of values. -/
structure DescribeImagesOutput where
  Images : List Image
  deriving DecidableEq, Repr

/-- The record `ec2.DescribeInstanceTypeOfferingsInput`. -/
structure DescribeInstanceTypeOfferingsInput where
  LocationType : String
  Filters : List Filter
  deriving DecidableEq, Repr

/-- The record `types.InstanceTypeOffering`. -/
structure InstanceTypeOffering where
  InstanceType : String
  Location : Option String
  deriving DecidableEq, Repr

/-- The record `ec2.DescribeInstanceTypeOfferingsOutput`. -/
structure DescribeInstanceTypeOfferingsOutput where
  InstanceTypeOfferings : List InstanceTypeOffering
  deriving DecidableEq, Repr

/-- The record `ec2.RunInstancesInput`. -/
structure RunInstancesInput where
  ImageId : Option String
  KeyName : Option String
  InstanceType : String
  MinCount : Option Int
  MaxCount : Option Int
  SubnetId : Option String
  deriving DecidableEq, Repr

/-- The record `types.Instance`. -/
structure Instance where
  InstanceId : Option String
  deriving DecidableEq, Repr

/-- The record `ec2.RunInstancesOutput`; `Instances` is a slice of values. -/
structure RunInstancesOutput where
  Instances : List Instance
  deriving DecidableEq, Repr

/-- The SDK constant `types.LocationTypeRegion`. -/
def LocationTypeRegion : String := "region"

/-! ## The simulated SDK -/

/-- The SDK as seen by `createEC2`: `config.LoadDefaultConfig` with the region
option, and the six methods of the EC2 client built from the configuration
(`ec2.NewFromConfig cfg`), each threading the provider state `σ`. -/
structure SDK (σ κ : Type) where
  LoadDefaultConfig : String → σ → Except String κ × σ
  CreateKeyPair : κ → CreateKeyPairInput → σ → Except String CreateKeyPairOutput × σ
  CreateVpc : κ → CreateVpcInput → σ → Except String CreateVpcOutput × σ
  CreateSubnet : κ → CreateSubnetInput → σ → Except String CreateSubnetOutput × σ
  DescribeImages : κ → DescribeImagesInput → σ → Except String DescribeImagesOutput × σ
  DescribeInstanceTypeOfferings :
    κ → DescribeInstanceTypeOfferingsInput → σ →
      Except String DescribeInstanceTypeOfferingsOutput × σ
  RunInstances : κ → RunInstancesInput → σ → Except String RunInstancesOutput × σ

/-- The six EC2 client operations the program can invoke. -/
inductive Op where
  | CreateKeyPair
  | CreateVpc
  | CreateSubnet
  | DescribeImages
  | DescribeInstanceTypeOfferings
  | RunInstances
  deriving DecidableEq, Repr

/-- One call made on the EC2 client: the request sent and the result received. -/
inductive Call where
  | createKeyPair (i : CreateKeyPairInput) (r : Except String CreateKeyPairOutput)
  | createVpc (i : CreateVpcInput) (r : Except String CreateVpcOutput)
  | createSubnet (i : CreateSubnetInput) (r : Except String CreateSubnetOutput)
  | describeImages (i : DescribeImagesInput) (r : Except String DescribeImagesOutput)
  | describeInstanceTypeOfferings (i : DescribeInstanceTypeOfferingsInput)
      (r : Except String DescribeInstanceTypeOfferingsOutput)
  | runInstances (i : RunInstancesInput) (r : Except String RunInstancesOutput)

/-- The operation a recorded call belongs to. -/
def Call.op : Call → Op
  | .createKeyPair _ _ => .CreateKeyPair
  | .createVpc _ _ => .CreateVpc
  | .createSubnet _ _ => .CreateSubnet
  | .describeImages _ _ => .DescribeImages
  | .describeInstanceTypeOfferings _ _ => .DescribeInstanceTypeOfferings
  | .runInstances _ _ => .RunInstances

/-- Number of recorded calls of one operation (a mock's call count). -/
def callCount (o : Op) (calls : List Call) : Nat :=
  (calls.filter (fun c => decide (c.op = o))).length

/-- The two run-time faults the program text can raise. -/
inductive Fault where
  | nilDereference
  | indexOutOfRange
  deriving DecidableEq, Repr

/-- How an invocation ends: the Go return pair `(string, error)`, or a run-time
panic. -/
inductive Outcome where
  | ret (id : String) (err : Option String)
  | panic (fault : Fault)
  deriving DecidableEq, Repr

/-- What one invocation leaves behind: its outcome, the calls made on the EC2
client in order, and the provider state. -/
structure Run (σ : Type) where
  outcome : Outcome
  calls : List Call
  final : σ

/-! ## The program -/

/-- The function `createEC2` of `AWS/cmd/api/main.go`. -/
def createEC2 {σ κ : Type} (sdk : SDK σ κ)
    (region keyName imageName instanceType : String) (s0 : σ) : Run σ :=
  match sdk.LoadDefaultConfig region s0 with
  | (.error err, s1) => ⟨.ret "" (some ("unable to load SDK config, " ++ err)), [], s1⟩
  | (.ok cfg, s1) =>
    let keyIn : CreateKeyPairInput := { KeyName := some keyName }
    match sdk.CreateKeyPair cfg keyIn s1 with
    | (.error err, s2) =>
      ⟨.ret "" (some ("CreateKeyPair error: " ++ err)), [.createKeyPair keyIn (.error err)], s2⟩
    | (.ok keyOutput, s2) =>
      let t1 : List Call := [.createKeyPair keyIn (.ok keyOutput)]
      let vpcIn : CreateVpcInput := { CidrBlock := some "10.0.0.0/16" }
      match sdk.CreateVpc cfg vpcIn s2 with
      | (.error err, s3) =>
        ⟨.ret "" (some ("CreateVpc error: " ++ err)), t1 ++ [.createVpc vpcIn (.error err)], s3⟩
      | (.ok vpcOutput, s3) =>
        let t2 := t1 ++ [.createVpc vpcIn (.ok vpcOutput)]
        match vpcOutput.Vpc with
        | none => ⟨.panic .nilDereference, t2, s3⟩
        | some vpc =>
          let subnetIn : CreateSubnetInput :=
            { VpcId := vpc.VpcId, CidrBlock := some "10.0.1.0/24" }
          match sdk.CreateSubnet cfg subnetIn s3 with
          | (.error err, s4) =>
            ⟨.ret "" (some ("CreateSubnet error: " ++ err)),
              t2 ++ [.createSubnet subnetIn (.error err)], s4⟩
          | (.ok subnetOutput, s4) =>
            let t3 := t2 ++ [.createSubnet subnetIn (.ok subnetOutput)]
            let imagesIn : DescribeImagesInput :=
              { Filters :=
                  [ { Name := some "name", Values := [imageName] },
                    { Name := some "virtualization-type", Values := ["hvm"] } ],
                Owners := ["099720109477"] }
            match sdk.DescribeImages cfg imagesIn s4 with
            | (.error err, s5) =>
              ⟨.ret "" (some ("DescribeImages error: " ++ err)),
                t3 ++ [.describeImages imagesIn (.error err)], s5⟩
            | (.ok imageOutput, s5) =>
              let t4 := t3 ++ [.describeImages imagesIn (.ok imageOutput)]
              if imageOutput.Images.length = 0 then
                ⟨.ret "" (some "imageOutput.Images is of 0 length"), t4, s5⟩
              else
                let offeringsIn : DescribeInstanceTypeOfferingsInput :=
                  { LocationType := LocationTypeRegion,
                    Filters :=
                      [ { Name := some "instance-type", Values := [instanceType] },
                        { Name := some "location", Values := [region] } ] }
                match sdk.DescribeInstanceTypeOfferings cfg offeringsIn s5 with
                | (.error err, s6) =>
                  ⟨.ret "" (some ("DescribeInstanceTypeOfferings error: " ++ err)),
                    t4 ++ [.describeInstanceTypeOfferings offeringsIn (.error err)], s6⟩
                | (.ok instanceTypesOutput, s6) =>
                  let t5 :=
                    t4 ++ [.describeInstanceTypeOfferings offeringsIn (.ok instanceTypesOutput)]
                  if instanceTypesOutput.InstanceTypeOfferings.length = 0 then
                    ⟨.ret ""
                        (some ("instance type " ++ instanceType ++
                          " is not available in region " ++ region)), t5, s6⟩
                  else
                    match imageOutput.Images[0]?, subnetOutput.Subnet with
                    | none, _ => ⟨.panic .indexOutOfRange, t5, s6⟩
                    | some _, none => ⟨.panic .nilDereference, t5, s6⟩
                    | some image, some subnet =>
                      let runIn : RunInstancesInput :=
                        { ImageId := image.ImageId,
                          KeyName := some keyName,
                          InstanceType := instanceType,
                          MinCount := some 1,
                          MaxCount := some 1,
                          SubnetId := subnet.SubnetId }
                      match sdk.RunInstances cfg runIn s6 with
                      | (.error err, s7) =>
                        ⟨.ret "" (some ("RunInstances error: " ++ err)),
                          t5 ++ [.runInstances runIn (.error err)], s7⟩
                      | (.ok runResult, s7) =>
                        let t6 := t5 ++ [.runInstances runIn (.ok runResult)]
                        if runResult.Instances.length = 0 then
                          ⟨.ret "" (some "runResult.Instances is of 0 length"), t6, s7⟩
                        else
                          match runResult.Instances[0]? with
                          | none => ⟨.panic .indexOutOfRange, t6, s7⟩
                          | some inst =>
                            match inst.InstanceId with
                            | none => ⟨.panic .nilDereference, t6, s7⟩
                            | some id => ⟨.ret id none, t6, s7⟩


/-! ## Specification vocabulary -/

/-- The fixed order in which `createEC2` addresses the EC2 client. -/
def pipeline : List Op :=
  [.CreateKeyPair, .CreateVpc, .CreateSubnet, .DescribeImages,
    .DescribeInstanceTypeOfferings, .RunInstances]

/-- Every successful response carries its payload: a created network comes with
its `Vpc` record, a created subnet with its `Subnet` record, and every launched
instance with its `InstanceId`. -/
def SDK.CarriesPayload {σ κ : Type} (sdk : SDK σ κ) : Prop :=
  (∀ cfg i s out s1, sdk.CreateVpc cfg i s = (.ok out, s1) → out.Vpc.isSome = true) ∧
  (∀ cfg i s out s1, sdk.CreateSubnet cfg i s = (.ok out, s1) → out.Subnet.isSome = true) ∧
  (∀ cfg i s out s1, sdk.RunInstances cfg i s = (.ok out, s1) →
    ∀ inst ∈ out.Instances, inst.InstanceId.isSome = true)

/-! ## A scripted provider, for concrete runs -/

/-- The canned results of a scripted provider, one per operation. -/
structure Script where
  config : Option String
  keyPair : Except String CreateKeyPairOutput
  vpc : Except String CreateVpcOutput
  subnet : Except String CreateSubnetOutput
  images : Except String DescribeImagesOutput
  offerings : Except String DescribeInstanceTypeOfferingsOutput
  run : Except String RunInstancesOutput

/-- The provider that plays a script: configuration loading fails with the
scripted text if there is one and otherwise yields the region; every client
operation answers with its scripted result. The state counts the requests
received. -/
def Script.sdk (sc : Script) : SDK Nat String where
  LoadDefaultConfig := fun region n =>
    match sc.config with
    | some e => (.error e, n + 1)
    | none => (.ok region, n + 1)
  CreateKeyPair := fun _ _ n => (sc.keyPair, n + 1)
  CreateVpc := fun _ _ n => (sc.vpc, n + 1)
  CreateSubnet := fun _ _ n => (sc.subnet, n + 1)
  DescribeImages := fun _ _ n => (sc.images, n + 1)
  DescribeInstanceTypeOfferings := fun _ _ n => (sc.offerings, n + 1)
  RunInstances := fun _ _ n => (sc.run, n + 1)

/-- The scenario of the specification: one image `ami-123`, the offering is
present, the launch returns instance `i-abc`. -/
def happyScript : Script where
  config := none
  keyPair := .ok { KeyPairId := some "key-0a1" }
  vpc := .ok { Vpc := some { VpcId := some "vpc-1" } }
  subnet := .ok { Subnet := some { SubnetId := some "subnet-1" } }
  images := .ok { Images := [{ ImageId := some "ami-123" }] }
  offerings := .ok { InstanceTypeOfferings :=
    [{ InstanceType := "t3.micro", Location := some "eu-north-1" }] }
  run := .ok { Instances := [{ InstanceId := some "i-abc" }] }

/-- The image name pattern of the specification's scenarios. -/
def demoImageName : String :=
  "ubuntu/images/hvm-ssd-gp3/ubuntu-noble-24.04-amd64-server-*"

/-- The specification's scenario with a launch that the provider rejects. -/
def launchFailsScript : Script :=
  { happyScript with run := .error "InsufficientInstanceCapacity" }

/-- The specification's scenario with an image lookup that matches nothing;
the later scripted results stay successful. -/
def noImageScript : Script :=
  { happyScript with images := .ok { Images := [] } }

/-- The specification's scenario with an empty offering lookup. -/
def noOfferingScript : Script :=
  { happyScript with offerings := .ok { InstanceTypeOfferings := [] } }

/-- The specification's scenario with a launch that returns no instance. -/
def emptyLaunchScript : Script :=
  { happyScript with run := .ok { Instances := [] } }

/-- The specification's scenario with a launched instance that has no id. -/
def nilIdScript : Script :=
  { happyScript with run := .ok { Instances := [{ InstanceId := none }] } }


/-! ## Error propagation -/

/-- C1: whichever step is the first whose provider call fails (configuration
loading, CreateKeyPair, CreateVpc, CreateSubnet, DescribeImages,
DescribeInstanceTypeOfferings, RunInstances), `createEC2` returns the empty
identifier and an error made of that step's tag followed by the provider's
error text, and the calls made on the client are exactly the steps up to and
including the failing one: no later step is performed. -/
theorem createEC2_first_failure {σ κ : Type} (sdk : SDK σ κ)
    (region keyName imageName instanceType : String) (s0 : σ) :
    (∀ e s1, sdk.LoadDefaultConfig region s0 = (.error e, s1) →
      (createEC2 sdk region keyName imageName instanceType s0).outcome =
          .ret "" (some ("unable to load SDK config, " ++ e)) ∧
        (createEC2 sdk region keyName imageName instanceType s0).calls = []) ∧
    (∀ cfg s1, sdk.LoadDefaultConfig region s0 = (.ok cfg, s1) →
      (∀ e s2, sdk.CreateKeyPair cfg { KeyName := some keyName } s1 = (.error e, s2) →
        (createEC2 sdk region keyName imageName instanceType s0).outcome =
            .ret "" (some ("CreateKeyPair error: " ++ e)) ∧
          (createEC2 sdk region keyName imageName instanceType s0).calls.map Call.op =
            [.CreateKeyPair]) ∧
      (∀ keyOutput s2,
        sdk.CreateKeyPair cfg { KeyName := some keyName } s1 = (.ok keyOutput, s2) →
        (∀ e s3, sdk.CreateVpc cfg { CidrBlock := some "10.0.0.0/16" } s2 = (.error e, s3) →
          (createEC2 sdk region keyName imageName instanceType s0).outcome =
              .ret "" (some ("CreateVpc error: " ++ e)) ∧
            (createEC2 sdk region keyName imageName instanceType s0).calls.map Call.op =
              [.CreateKeyPair, .CreateVpc]) ∧
        (∀ vpc s3,
          sdk.CreateVpc cfg { CidrBlock := some "10.0.0.0/16" } s2 =
            (.ok { Vpc := some vpc }, s3) →
          (∀ e s4,
            sdk.CreateSubnet cfg { VpcId := vpc.VpcId, CidrBlock := some "10.0.1.0/24" } s3 =
              (.error e, s4) →
            (createEC2 sdk region keyName imageName instanceType s0).outcome =
                .ret "" (some ("CreateSubnet error: " ++ e)) ∧
              (createEC2 sdk region keyName imageName instanceType s0).calls.map Call.op =
                [.CreateKeyPair, .CreateVpc, .CreateSubnet]) ∧
          (∀ subnetOutput s4,
            sdk.CreateSubnet cfg { VpcId := vpc.VpcId, CidrBlock := some "10.0.1.0/24" } s3 =
              (.ok subnetOutput, s4) →
            (∀ e s5,
              sdk.DescribeImages cfg
                  { Filters :=
                      [ { Name := some "name", Values := [imageName] },
                        { Name := some "virtualization-type", Values := ["hvm"] } ],
                    Owners := ["099720109477"] } s4 = (.error e, s5) →
              (createEC2 sdk region keyName imageName instanceType s0).outcome =
                  .ret "" (some ("DescribeImages error: " ++ e)) ∧
                (createEC2 sdk region keyName imageName instanceType s0).calls.map Call.op =
                  [.CreateKeyPair, .CreateVpc, .CreateSubnet, .DescribeImages]) ∧
            (∀ image images s5,
              sdk.DescribeImages cfg
                  { Filters :=
                      [ { Name := some "name", Values := [imageName] },
                        { Name := some "virtualization-type", Values := ["hvm"] } ],
                    Owners := ["099720109477"] } s4 =
                (.ok { Images := image :: images }, s5) →
              (∀ e s6,
                sdk.DescribeInstanceTypeOfferings cfg
                    { LocationType := LocationTypeRegion,
                      Filters :=
                        [ { Name := some "instance-type", Values := [instanceType] },
                          { Name := some "location", Values := [region] } ] } s5 =
                  (.error e, s6) →
                (createEC2 sdk region keyName imageName instanceType s0).outcome =
                    .ret "" (some ("DescribeInstanceTypeOfferings error: " ++ e)) ∧
                  (createEC2 sdk region keyName imageName instanceType s0).calls.map Call.op =
                    [.CreateKeyPair, .CreateVpc, .CreateSubnet, .DescribeImages,
                      .DescribeInstanceTypeOfferings]) ∧
              (∀ offering offerings s6 subnet e s7,
                sdk.DescribeInstanceTypeOfferings cfg
                    { LocationType := LocationTypeRegion,
                      Filters :=
                        [ { Name := some "instance-type", Values := [instanceType] },
                          { Name := some "location", Values := [region] } ] } s5 =
                  (.ok { InstanceTypeOfferings := offering :: offerings }, s6) →
                subnetOutput.Subnet = some subnet →
                sdk.RunInstances cfg
                    { ImageId := image.ImageId,
                      KeyName := some keyName,
                      InstanceType := instanceType,
                      MinCount := some 1,
                      MaxCount := some 1,
                      SubnetId := subnet.SubnetId } s6 = (.error e, s7) →
                (createEC2 sdk region keyName imageName instanceType s0).outcome =
                    .ret "" (some ("RunInstances error: " ++ e)) ∧
                  (createEC2 sdk region keyName imageName instanceType s0).calls.map Call.op =
                    [.CreateKeyPair, .CreateVpc, .CreateSubnet, .DescribeImages,
                      .DescribeInstanceTypeOfferings, .RunInstances])))))) := by
  refine ⟨fun e s1 h0 => ?_, fun cfg s1 h0 => ⟨fun e s2 h1 => ?_, fun keyOutput s2 h1 =>
    ⟨fun e s3 h2 => ?_, fun vpc s3 h2 => ⟨fun e s4 h3 => ?_, fun subnetOutput s4 h3 =>
      ⟨fun e s5 h4 => ?_, fun image images s5 h4 => ⟨fun e s6 h5 => ?_,
        fun offering offerings s6 subnet e s7 h5 hs h6 => ?_⟩⟩⟩⟩⟩⟩
  all_goals simp [createEC2, Call.op, *]


/-- Witness for C1: with the scripted provider whose launch is rejected, the
six earlier hypotheses hold and the run ends in the tagged RunInstances error
after the six calls. -/
theorem createEC2_first_failure_witness :
    (createEC2 launchFailsScript.sdk "eu-north-1" "demo-key" demoImageName "t3.micro" 0).outcome =
        .ret "" (some ("RunInstances error: " ++ "InsufficientInstanceCapacity")) ∧
      (createEC2 launchFailsScript.sdk "eu-north-1" "demo-key" demoImageName "t3.micro"
          0).calls.map Call.op =
        [.CreateKeyPair, .CreateVpc, .CreateSubnet, .DescribeImages,
          .DescribeInstanceTypeOfferings, .RunInstances] :=
  ((((((createEC2_first_failure launchFailsScript.sdk "eu-north-1" "demo-key" demoImageName
      "t3.micro" 0).2 "eu-north-1" 1 rfl).2 { KeyPairId := some "key-0a1" } 2 rfl).2
      { VpcId := some "vpc-1" } 3 rfl).2 { Subnet := some { SubnetId := some "subnet-1" } } 4
      rfl).2 { ImageId := some "ami-123" } [] 5 rfl).2
      { InstanceType := "t3.micro", Location := some "eu-north-1" } [] 6
      { SubnetId := some "subnet-1" } "InsufficientInstanceCapacity" 7 rfl rfl rfl

/-! ## The successful run -/

/-- C2, as amended: if configuration loading and the six provider calls
succeed, the image list and the offering list are non-empty and the launch
response starts with an instance that carries an instance id `id` (its
`InstanceId` is not nil), then `createEC2` returns `id` with a nil error. -/
theorem createEC2_success {σ κ : Type} (sdk : SDK σ κ)
    (region keyName imageName instanceType : String) (s0 s1 s2 s3 s4 s5 s6 s7 : σ) (cfg : κ)
    (keyOutput : CreateKeyPairOutput) (vpc : Vpc) (subnet : Subnet)
    (image : Image) (images : List Image)
    (offering : InstanceTypeOffering) (offerings : List InstanceTypeOffering)
    (id : String) (instances : List Instance)
    (h0 : sdk.LoadDefaultConfig region s0 = (.ok cfg, s1))
    (h1 : sdk.CreateKeyPair cfg { KeyName := some keyName } s1 = (.ok keyOutput, s2))
    (h2 : sdk.CreateVpc cfg { CidrBlock := some "10.0.0.0/16" } s2 =
      (.ok { Vpc := some vpc }, s3))
    (h3 : sdk.CreateSubnet cfg { VpcId := vpc.VpcId, CidrBlock := some "10.0.1.0/24" } s3 =
      (.ok { Subnet := some subnet }, s4))
    (h4 : sdk.DescribeImages cfg
        { Filters :=
            [ { Name := some "name", Values := [imageName] },
              { Name := some "virtualization-type", Values := ["hvm"] } ],
          Owners := ["099720109477"] } s4 = (.ok { Images := image :: images }, s5))
    (h5 : sdk.DescribeInstanceTypeOfferings cfg
        { LocationType := LocationTypeRegion,
          Filters :=
            [ { Name := some "instance-type", Values := [instanceType] },
              { Name := some "location", Values := [region] } ] } s5 =
      (.ok { InstanceTypeOfferings := offering :: offerings }, s6))
    (h6 : sdk.RunInstances cfg
        { ImageId := image.ImageId,
          KeyName := some keyName,
          InstanceType := instanceType,
          MinCount := some 1,
          MaxCount := some 1,
          SubnetId := subnet.SubnetId } s6 =
      (.ok { Instances := { InstanceId := some id } :: instances }, s7)) :
    (createEC2 sdk region keyName imageName instanceType s0).outcome = .ret id none := by
  simp [createEC2, *]

/-- Witness for C2, the specification's scenario: region `eu-north-1`, key
`demo-key`, size `t3.micro`, one image `ami-123`, offering present, launch
returning `i-abc`; the result is `("i-abc", nil)`. -/
theorem createEC2_success_witness :
    (createEC2 happyScript.sdk "eu-north-1" "demo-key" demoImageName "t3.micro" 0).outcome =
      .ret "i-abc" none :=
  createEC2_success happyScript.sdk "eu-north-1" "demo-key" demoImageName "t3.micro"
    0 1 2 3 4 5 6 7 "eu-north-1" { KeyPairId := some "key-0a1" } { VpcId := some "vpc-1" }
    { SubnetId := some "subnet-1" } { ImageId := some "ami-123" } []
    { InstanceType := "t3.micro", Location := some "eu-north-1" } [] "i-abc" []
    rfl rfl rfl rfl rfl rfl rfl


/-- Counterexample to C2 as stated: with the scripted provider whose launch
returns one instance with a nil `InstanceId`, configuration loading and all six
provider calls succeed on the requests `createEC2` sends, the image list and
the offering list are non-empty and the launch response holds one instance, all
six calls are made, and yet `createEC2` returns nothing: it dereferences the nil
`InstanceId` (`main.go:119`). -/
theorem createEC2_success_counterexample :
    nilIdScript.sdk.LoadDefaultConfig "eu-north-1" 0 = (.ok "eu-north-1", 1) ∧
    nilIdScript.sdk.CreateKeyPair "eu-north-1" { KeyName := some "demo-key" } 1 =
      (.ok { KeyPairId := some "key-0a1" }, 2) ∧
    nilIdScript.sdk.CreateVpc "eu-north-1" { CidrBlock := some "10.0.0.0/16" } 2 =
      (.ok { Vpc := some { VpcId := some "vpc-1" } }, 3) ∧
    nilIdScript.sdk.CreateSubnet "eu-north-1"
        { VpcId := some "vpc-1", CidrBlock := some "10.0.1.0/24" } 3 =
      (.ok { Subnet := some { SubnetId := some "subnet-1" } }, 4) ∧
    nilIdScript.sdk.DescribeImages "eu-north-1"
        { Filters :=
            [ { Name := some "name", Values := [demoImageName] },
              { Name := some "virtualization-type", Values := ["hvm"] } ],
          Owners := ["099720109477"] } 4 =
      (.ok { Images := [{ ImageId := some "ami-123" }] }, 5) ∧
    nilIdScript.sdk.DescribeInstanceTypeOfferings "eu-north-1"
        { LocationType := LocationTypeRegion,
          Filters :=
            [ { Name := some "instance-type", Values := ["t3.micro"] },
              { Name := some "location", Values := ["eu-north-1"] } ] } 5 =
      (.ok { InstanceTypeOfferings :=
        [{ InstanceType := "t3.micro", Location := some "eu-north-1" }] }, 6) ∧
    nilIdScript.sdk.RunInstances "eu-north-1"
        { ImageId := some "ami-123",
          KeyName := some "demo-key",
          InstanceType := "t3.micro",
          MinCount := some 1,
          MaxCount := some 1,
          SubnetId := some "subnet-1" } 6 =
      (.ok { Instances := [{ InstanceId := none }] }, 7) ∧
    (createEC2 nilIdScript.sdk "eu-north-1" "demo-key" demoImageName "t3.micro"
        0).calls.map Call.op = pipeline ∧
    (createEC2 nilIdScript.sdk "eu-north-1" "demo-key" demoImageName "t3.micro" 0).outcome =
      .panic .nilDereference ∧
    ¬ ∃ id err,
      (createEC2 nilIdScript.sdk "eu-north-1" "demo-key" demoImageName "t3.micro"
        0).outcome = .ret id err := by
  refine ⟨rfl, rfl, rfl, rfl, rfl, rfl, rfl, rfl, rfl, ?_⟩
  rintro ⟨id, err, h⟩
  have hp : (createEC2 nilIdScript.sdk "eu-north-1" "demo-key" demoImageName "t3.micro"
      0).outcome = .panic .nilDereference := rfl
  rw [hp] at h
  exact Outcome.noConfusion h

/-! ## Empty lookups and empty launches -/

/-- C3: if all earlier steps succeed and the offering lookup succeeds with zero
results, `createEC2` returns the empty identifier with the error naming the
instance type and the region, and RunInstances is never invoked (its call count
is 0). -/
theorem createEC2_unsupported_instance_type {σ κ : Type} (sdk : SDK σ κ)
    (region keyName imageName instanceType : String) (s0 s1 s2 s3 s4 s5 s6 : σ) (cfg : κ)
    (keyOutput : CreateKeyPairOutput) (vpc : Vpc) (subnetOutput : CreateSubnetOutput)
    (image : Image) (images : List Image)
    (h0 : sdk.LoadDefaultConfig region s0 = (.ok cfg, s1))
    (h1 : sdk.CreateKeyPair cfg { KeyName := some keyName } s1 = (.ok keyOutput, s2))
    (h2 : sdk.CreateVpc cfg { CidrBlock := some "10.0.0.0/16" } s2 =
      (.ok { Vpc := some vpc }, s3))
    (h3 : sdk.CreateSubnet cfg { VpcId := vpc.VpcId, CidrBlock := some "10.0.1.0/24" } s3 =
      (.ok subnetOutput, s4))
    (h4 : sdk.DescribeImages cfg
        { Filters :=
            [ { Name := some "name", Values := [imageName] },
              { Name := some "virtualization-type", Values := ["hvm"] } ],
          Owners := ["099720109477"] } s4 = (.ok { Images := image :: images }, s5))
    (h5 : sdk.DescribeInstanceTypeOfferings cfg
        { LocationType := LocationTypeRegion,
          Filters :=
            [ { Name := some "instance-type", Values := [instanceType] },
              { Name := some "location", Values := [region] } ] } s5 =
      (.ok { InstanceTypeOfferings := [] }, s6)) :
    (createEC2 sdk region keyName imageName instanceType s0).outcome =
        .ret "" (some ("instance type " ++ instanceType ++
          " is not available in region " ++ region)) ∧
      callCount .RunInstances (createEC2 sdk region keyName imageName instanceType s0).calls =
        0 := by
  simp [createEC2, callCount, Call.op, *]

/-- Witness for C3, the specification's scenario with an empty offering lookup:
the result is the empty identifier with the error naming `t3.micro` and
`eu-north-1`, and the launch was called 0 times. -/
theorem createEC2_unsupported_instance_type_witness :
    (createEC2 noOfferingScript.sdk "eu-north-1" "demo-key" demoImageName "t3.micro"
        0).outcome =
        .ret "" (some ("instance type " ++ "t3.micro" ++
          " is not available in region " ++ "eu-north-1")) ∧
      callCount .RunInstances
        (createEC2 noOfferingScript.sdk "eu-north-1" "demo-key" demoImageName "t3.micro"
          0).calls = 0 :=
  createEC2_unsupported_instance_type noOfferingScript.sdk "eu-north-1" "demo-key" demoImageName
    "t3.micro" 0 1 2 3 4 5 6 "eu-north-1" { KeyPairId := some "key-0a1" }
    { VpcId := some "vpc-1" } { Subnet := some { SubnetId := some "subnet-1" } }
    { ImageId := some "ami-123" } [] rfl rfl rfl rfl rfl rfl

/-- C4: if the image lookup of an invocation returns zero results, `createEC2`
returns the empty identifier with the image-list-empty error, whatever the
provider would answer to the offering lookup and to the launch: neither is
called, the calls stop at DescribeImages. -/
theorem createEC2_image_missing {σ κ : Type} (sdk : SDK σ κ)
    (region keyName imageName instanceType : String) (s0 : σ)
    (i : DescribeImagesInput) (imageOutput : DescribeImagesOutput)
    (h : Call.describeImages i (.ok imageOutput) ∈
      (createEC2 sdk region keyName imageName instanceType s0).calls)
    (hz : imageOutput.Images = []) :
    (createEC2 sdk region keyName imageName instanceType s0).outcome =
        .ret "" (some "imageOutput.Images is of 0 length") ∧
      (createEC2 sdk region keyName imageName instanceType s0).calls.map Call.op =
        [.CreateKeyPair, .CreateVpc, .CreateSubnet, .DescribeImages] := by
  revert h
  simp only [createEC2]
  repeat' split
  all_goals simp [Call.op]
  all_goals
    intro _ ho
    subst ho
    simp_all

/-- Witness for C4: the scripted provider finds no image while its offering
lookup and launch would both succeed; the result is the image error and the
calls stop at DescribeImages. -/
theorem createEC2_image_missing_witness :
    (createEC2 noImageScript.sdk "eu-north-1" "demo-key" demoImageName "t3.micro" 0).outcome =
        .ret "" (some "imageOutput.Images is of 0 length") ∧
      (createEC2 noImageScript.sdk "eu-north-1" "demo-key" demoImageName "t3.micro"
          0).calls.map Call.op =
        [.CreateKeyPair, .CreateVpc, .CreateSubnet, .DescribeImages] :=
  createEC2_image_missing noImageScript.sdk "eu-north-1" "demo-key" demoImageName "t3.micro" 0
    { Filters :=
        [ { Name := some "name", Values := [demoImageName] },
          { Name := some "virtualization-type", Values := ["hvm"] } ],
      Owners := ["099720109477"] }
    { Images := [] }
    (List.Mem.tail _ (List.Mem.tail _ (List.Mem.tail _ (List.Mem.head _)))) rfl

/-- C6: if every step up to and including the RunInstances call succeeds but
the launch response holds zero instances, `createEC2` returns the empty
identifier with the instance-list-empty error, which is not a provider error
tagged RunInstances. -/
theorem createEC2_empty_launch {σ κ : Type} (sdk : SDK σ κ)
    (region keyName imageName instanceType : String) (s0 s1 s2 s3 s4 s5 s6 s7 : σ) (cfg : κ)
    (keyOutput : CreateKeyPairOutput) (vpc : Vpc) (subnet : Subnet)
    (image : Image) (images : List Image)
    (offering : InstanceTypeOffering) (offerings : List InstanceTypeOffering)
    (h0 : sdk.LoadDefaultConfig region s0 = (.ok cfg, s1))
    (h1 : sdk.CreateKeyPair cfg { KeyName := some keyName } s1 = (.ok keyOutput, s2))
    (h2 : sdk.CreateVpc cfg { CidrBlock := some "10.0.0.0/16" } s2 =
      (.ok { Vpc := some vpc }, s3))
    (h3 : sdk.CreateSubnet cfg { VpcId := vpc.VpcId, CidrBlock := some "10.0.1.0/24" } s3 =
      (.ok { Subnet := some subnet }, s4))
    (h4 : sdk.DescribeImages cfg
        { Filters :=
            [ { Name := some "name", Values := [imageName] },
              { Name := some "virtualization-type", Values := ["hvm"] } ],
          Owners := ["099720109477"] } s4 = (.ok { Images := image :: images }, s5))
    (h5 : sdk.DescribeInstanceTypeOfferings cfg
        { LocationType := LocationTypeRegion,
          Filters :=
            [ { Name := some "instance-type", Values := [instanceType] },
              { Name := some "location", Values := [region] } ] } s5 =
      (.ok { InstanceTypeOfferings := offering :: offerings }, s6))
    (h6 : sdk.RunInstances cfg
        { ImageId := image.ImageId,
          KeyName := some keyName,
          InstanceType := instanceType,
          MinCount := some 1,
          MaxCount := some 1,
          SubnetId := subnet.SubnetId } s6 = (.ok { Instances := [] }, s7)) :
    (createEC2 sdk region keyName imageName instanceType s0).outcome =
        .ret "" (some "runResult.Instances is of 0 length") ∧
      ∀ e : String,
        (createEC2 sdk region keyName imageName instanceType s0).outcome ≠
          .ret "" (some ("RunInstances error: " ++ e)) := by
  have hrun : (createEC2 sdk region keyName imageName instanceType s0).outcome =
      .ret "" (some "runResult.Instances is of 0 length") := by
    simp [createEC2, *]
  refine ⟨hrun, fun e h => ?_⟩
  rw [hrun] at h
  have hd := congrArg
    (fun o : Outcome =>
      match o with
      | .ret _ (some m) => m.data.head?
      | _ => none) h
  simp [String.data_append] at hd

/-- Witness for C6: the scripted provider launches nothing; the result is the
instance-list-empty error and no RunInstances-tagged error. -/
theorem createEC2_empty_launch_witness :
    (createEC2 emptyLaunchScript.sdk "eu-north-1" "demo-key" demoImageName "t3.micro"
        0).outcome =
        .ret "" (some "runResult.Instances is of 0 length") ∧
      ∀ e : String,
        (createEC2 emptyLaunchScript.sdk "eu-north-1" "demo-key" demoImageName "t3.micro"
          0).outcome ≠ .ret "" (some ("RunInstances error: " ++ e)) :=
  createEC2_empty_launch emptyLaunchScript.sdk "eu-north-1" "demo-key" demoImageName "t3.micro"
    0 1 2 3 4 5 6 7 "eu-north-1" { KeyPairId := some "key-0a1" } { VpcId := some "vpc-1" }
    { SubnetId := some "subnet-1" } { ImageId := some "ami-123" } []
    { InstanceType := "t3.micro", Location := some "eu-north-1" } [] rfl rfl rfl rfl rfl rfl rfl


/-! ## The requests sent -/

/-- C5: whenever `createEC2` issues the RunInstances request, that request
carries the caller's key name and instance type, a count of exactly 1
(`MinCount = MaxCount = 1`), the image id of the first image of the
DescribeImages response of the same invocation, and the subnet id of the
CreateSubnet response of the same invocation. -/
theorem createEC2_run_request {σ κ : Type} (sdk : SDK σ κ)
    (region keyName imageName instanceType : String) (s0 : σ)
    (i : RunInstancesInput) (r : Except String RunInstancesOutput)
    (h : Call.runInstances i r ∈
      (createEC2 sdk region keyName imageName instanceType s0).calls) :
    i.KeyName = some keyName ∧ i.InstanceType = instanceType ∧
      i.MinCount = some 1 ∧ i.MaxCount = some 1 ∧
      (∃ imagesIn imageOutput image,
        Call.describeImages imagesIn (.ok imageOutput) ∈
            (createEC2 sdk region keyName imageName instanceType s0).calls ∧
          imageOutput.Images[0]? = some image ∧ i.ImageId = image.ImageId) ∧
      (∃ subnetIn subnetOutput subnet,
        Call.createSubnet subnetIn (.ok subnetOutput) ∈
            (createEC2 sdk region keyName imageName instanceType s0).calls ∧
          subnetOutput.Subnet = some subnet ∧ i.SubnetId = subnet.SubnetId) := by
  revert h
  simp only [createEC2]
  repeat' split
  all_goals simp
  all_goals
    intro hi _
    subst hi
    simp [*, and_assoc]

/-- Witness for C5: in the specification's scenario the RunInstances request is
issued, and it carries `ami-123`, `demo-key`, `t3.micro`, `subnet-1` and the
count 1. -/
theorem createEC2_run_request_witness :
    Call.runInstances
        { ImageId := some "ami-123", KeyName := some "demo-key", InstanceType := "t3.micro",
          MinCount := some 1, MaxCount := some 1, SubnetId := some "subnet-1" }
        (.ok { Instances := [{ InstanceId := some "i-abc" }] }) ∈
      (createEC2 happyScript.sdk "eu-north-1" "demo-key" demoImageName "t3.micro" 0).calls ∧
    ∃ imagesIn imageOutput image,
      Call.describeImages imagesIn (.ok imageOutput) ∈
          (createEC2 happyScript.sdk "eu-north-1" "demo-key" demoImageName "t3.micro" 0).calls ∧
        imageOutput.Images[0]? = some image ∧ some "ami-123" = image.ImageId :=
  have hmem : Call.runInstances
        { ImageId := some "ami-123", KeyName := some "demo-key", InstanceType := "t3.micro",
          MinCount := some 1, MaxCount := some 1, SubnetId := some "subnet-1" }
        (.ok { Instances := [{ InstanceId := some "i-abc" }] }) ∈
      (createEC2 happyScript.sdk "eu-north-1" "demo-key" demoImageName "t3.micro" 0).calls :=
    List.Mem.tail _ (List.Mem.tail _ (List.Mem.tail _ (List.Mem.tail _ (List.Mem.tail _
      (List.Mem.head _)))))
  ⟨hmem, (createEC2_run_request happyScript.sdk "eu-north-1" "demo-key" demoImageName
    "t3.micro" 0 _ _ hmem).2.2.2.2.1⟩

/-- C7: whenever `createEC2` issues the image query, the request has exactly
two filters, `name` with the caller's image name and `virtualization-type` with
`hvm`, and exactly one owner, `099720109477`; of the input it uses the image
name only. -/
theorem createEC2_images_request {σ κ : Type} (sdk : SDK σ κ)
    (region keyName imageName instanceType : String) (s0 : σ)
    (i : DescribeImagesInput) (r : Except String DescribeImagesOutput)
    (h : Call.describeImages i r ∈
      (createEC2 sdk region keyName imageName instanceType s0).calls) :
    i = { Filters :=
            [ { Name := some "name", Values := [imageName] },
              { Name := some "virtualization-type", Values := ["hvm"] } ],
          Owners := ["099720109477"] } := by
  revert h
  simp only [createEC2]
  repeat' split
  all_goals simp
  all_goals
    intro hi _
    exact hi

/-- Witness for C7: in the run where no image is found the image query was
issued, with the two filters and the single owner. -/
theorem createEC2_images_request_witness :
    Call.describeImages
        { Filters :=
            [ { Name := some "name", Values := [demoImageName] },
              { Name := some "virtualization-type", Values := ["hvm"] } ],
          Owners := ["099720109477"] }
        (.ok { Images := [] }) ∈
      (createEC2 noImageScript.sdk "eu-north-1" "demo-key" demoImageName "t3.micro" 0).calls ∧
    (⟨[⟨some "name", [demoImageName]⟩, ⟨some "virtualization-type", ["hvm"]⟩],
        ["099720109477"]⟩ : DescribeImagesInput) =
      { Filters :=
          [ { Name := some "name", Values := [demoImageName] },
            { Name := some "virtualization-type", Values := ["hvm"] } ],
        Owners := ["099720109477"] } :=
  have hmem : Call.describeImages
        { Filters :=
            [ { Name := some "name", Values := [demoImageName] },
              { Name := some "virtualization-type", Values := ["hvm"] } ],
          Owners := ["099720109477"] }
        (.ok { Images := [] }) ∈
      (createEC2 noImageScript.sdk "eu-north-1" "demo-key" demoImageName "t3.micro" 0).calls :=
    List.Mem.tail _ (List.Mem.tail _ (List.Mem.tail _ (List.Mem.head _)))
  ⟨hmem, createEC2_images_request noImageScript.sdk "eu-north-1" "demo-key" demoImageName
    "t3.micro" 0 _ _ hmem⟩

/-- C8: for every input, a network creation request of `createEC2` is the fixed
block `10.0.0.0/16`, and a subnet creation request carries the fixed block
`10.0.1.0/24` and the network id of the CreateVpc response of the same
invocation; region, key name, image name and instance type occur in neither. -/
theorem createEC2_network_requests {σ κ : Type} (sdk : SDK σ κ)
    (region keyName imageName instanceType : String) (s0 : σ) :
    (∀ i r, Call.createVpc i r ∈
        (createEC2 sdk region keyName imageName instanceType s0).calls →
      i = { CidrBlock := some "10.0.0.0/16" }) ∧
    (∀ i r, Call.createSubnet i r ∈
        (createEC2 sdk region keyName imageName instanceType s0).calls →
      ∃ vpcIn vpcOutput vpc,
        Call.createVpc vpcIn (.ok vpcOutput) ∈
            (createEC2 sdk region keyName imageName instanceType s0).calls ∧
          vpcOutput.Vpc = some vpc ∧
          i = { VpcId := vpc.VpcId, CidrBlock := some "10.0.1.0/24" }) := by
  simp only [createEC2]
  repeat' split
  all_goals simp [*, and_assoc]

/-- Witness for C8: in the specification's scenario the subnet request was
issued for network `vpc-1` with block `10.0.1.0/24`, after a network request
for `10.0.0.0/16`. -/
theorem createEC2_network_requests_witness :
    Call.createSubnet { VpcId := some "vpc-1", CidrBlock := some "10.0.1.0/24" }
        (.ok { Subnet := some { SubnetId := some "subnet-1" } }) ∈
      (createEC2 happyScript.sdk "eu-north-1" "demo-key" demoImageName "t3.micro" 0).calls ∧
    ∃ vpcIn vpcOutput vpc,
      Call.createVpc vpcIn (.ok vpcOutput) ∈
          (createEC2 happyScript.sdk "eu-north-1" "demo-key" demoImageName "t3.micro" 0).calls ∧
        vpcOutput.Vpc = some vpc ∧
        ({ VpcId := some "vpc-1", CidrBlock := some "10.0.1.0/24" } : CreateSubnetInput) =
          { VpcId := vpc.VpcId, CidrBlock := some "10.0.1.0/24" } :=
  have hmem : Call.createSubnet { VpcId := some "vpc-1", CidrBlock := some "10.0.1.0/24" }
        (.ok { Subnet := some { SubnetId := some "subnet-1" } }) ∈
      (createEC2 happyScript.sdk "eu-north-1" "demo-key" demoImageName "t3.micro" 0).calls :=
    List.Mem.tail _ (List.Mem.tail _ (List.Mem.head _))
  ⟨hmem, (createEC2_network_requests happyScript.sdk "eu-north-1" "demo-key" demoImageName
    "t3.micro" 0).2 _ _ hmem⟩

/-! ## Call order -/

/-- C9: for every input and every provider behaviour, the operations called by
one invocation of `createEC2`, in call order, form an initial segment of
CreateKeyPair, CreateVpc, CreateSubnet, DescribeImages,
DescribeInstanceTypeOfferings, RunInstances: each is attempted at most once, in
that order, and nothing else (no retry, no teardown) is ever called. -/
theorem createEC2_calls_initial_segment {σ κ : Type} (sdk : SDK σ κ)
    (region keyName imageName instanceType : String) (s0 : σ) :
    (createEC2 sdk region keyName imageName instanceType s0).calls.map Call.op <+: pipeline := by
  simp only [createEC2]
  repeat' split
  all_goals simp [Call.op, pipeline, List.IsPrefix]


/-! ## Absence of run-time faults -/

/-- C10: `createEC2` never indexes a slice out of range (`Images[0]` and
`Instances[0]` are read only after the length checks), and when every
successful provider response carries its payload it never faults at all: it
returns either an identifier with a nil error or the empty identifier with an
error. -/
theorem createEC2_no_fault {σ κ : Type} (sdk : SDK σ κ)
    (region keyName imageName instanceType : String) (s0 : σ) :
    (createEC2 sdk region keyName imageName instanceType s0).outcome ≠
        .panic .indexOutOfRange ∧
      (sdk.CarriesPayload →
        (∃ id, (createEC2 sdk region keyName imageName instanceType s0).outcome =
          .ret id none) ∨
        (∃ e, (createEC2 sdk region keyName imageName instanceType s0).outcome =
          .ret "" (some e))) := by
  constructor
  · simp only [createEC2]
    repeat' split
    all_goals simp_all
  · rintro ⟨hv, hs, hr⟩
    simp only [createEC2]
    repeat' split
    all_goals first
      | simp; done
      | (have hr1 := hr _ _ _ _ _ ‹sdk.RunInstances _ _ _ = (Except.ok _, _)› _
           (List.getElem?_mem ‹_ = some _›)
         simp_all)
      | (have hv1 := hv _ _ _ _ _ ‹sdk.CreateVpc _ _ _ = (Except.ok _, _)›
         have hs1 := hs _ _ _ _ _ ‹sdk.CreateSubnet _ _ _ = (Except.ok _, _)›
         simp_all)
      | (have hv1 := hv _ _ _ _ _ ‹sdk.CreateVpc _ _ _ = (Except.ok _, _)›
         simp_all)

/-- The payload precondition cannot be dropped: a successful launch whose
first instance has a nil `InstanceId` makes `createEC2` dereference nil. -/
theorem createEC2_nil_instance_id_faults :
    (createEC2 nilIdScript.sdk "eu-north-1" "demo-key" demoImageName "t3.micro" 0).outcome =
      .panic .nilDereference := by
  rfl

/-- Witness for C10: the scripted provider of the specification's scenario
carries every payload, and its run returns an identifier with a nil error or
the empty identifier with an error. -/
theorem createEC2_no_fault_witness :
    happyScript.sdk.CarriesPayload ∧
      ((∃ id, (createEC2 happyScript.sdk "eu-north-1" "demo-key" demoImageName "t3.micro"
          0).outcome = .ret id none) ∨
        (∃ e, (createEC2 happyScript.sdk "eu-north-1" "demo-key" demoImageName "t3.micro"
          0).outcome = .ret "" (some e))) :=
  have hp : happyScript.sdk.CarriesPayload := by
    refine ⟨?_, ?_, ?_⟩
    · intro cfg i s out s1 h
      simp only [Script.sdk, happyScript, Prod.mk.injEq, Except.ok.injEq] at h
      rw [← h.1]
      rfl
    · intro cfg i s out s1 h
      simp only [Script.sdk, happyScript, Prod.mk.injEq, Except.ok.injEq] at h
      rw [← h.1]
      rfl
    · intro cfg i s out s1 h inst hinst
      simp only [Script.sdk, happyScript, Prod.mk.injEq, Except.ok.injEq] at h
      rw [← h.1] at hinst
      simp only [List.mem_singleton] at hinst
      rw [hinst]
      rfl
  ⟨hp, (createEC2_no_fault happyScript.sdk "eu-north-1" "demo-key" demoImageName "t3.micro"
    0).2 hp⟩

end AWS
